import Mathlib

/-!
Verification development for the NASim network-attack-simulator environment
orchestrator (`nasim/env/environment.py`).

The repository ships only the orchestrator (`NASimEnv`) in source form; its
collaborators (`Network`, `State`, `Action`, the scenario machinery) are
external to the source tree and are modelled here from the specification
document, each such definition carrying a doc comment starting with
"Modelled from the spec:".  Everything under the `NASim` namespace that is
not so marked is a direct translation of `environment.py`.

Machine-level conventions of the embedding:
  * Python floats (rewards, costs, probabilities, random draws) are embedded
    as `Int` (values/costs) and `ℚ` (probabilities and draws).
  * The global NumPy random stream is embedded as an explicit draw function
    `rand : Nat → ℚ` together with a cursor `k : Nat`; calling
    `np.random.rand()` reads `rand k` and advances the cursor to `k + 1`.
    A step that never reaches the random gate leaves the cursor unchanged.
  * In-place mutation is embedded as explicit state passing: an operation
    that mutates `self` returns the updated record.
  * Python exceptions are embedded as `Except` errors.
-/

namespace NASim

/-- A host address `(subnetId, hostId)`. -/
abbrev Address := Nat × Nat

/-- Modelled from the spec: `INTERNET` (imported by `environment.py` from
`nasim.scenarios`, which is not part of the source tree) is the distinguished
pseudo-subnet representing the attacker's external entry point. -/
def INTERNET : Nat := 0

/-- Translation of the `Action` value as used by `environment.py`
(`action.target`, `action.cost`, `action.prob`, `action.service`,
`action.is_scan()`); `action.py` itself is outside the source tree, and these
are exactly the fields the spec gives an Action (§3). -/
structure Action where
  target : Address
  cost : Int
  prob : ℚ
  service : Nat
  is_scan : Bool
deriving DecidableEq

/-- Modelled from the spec: the `Network` aggregate (network.py is not under
the source tree).  Per §3/§4.1 it owns the address space, per-host data
(value, OS, true service presence, sensitive flag), the subnet adjacency,
the firewall rule table, the reachable set and the compromised set.
`minimal_steps` is the shortest-path analytic query of §4.1
(`getMinimalSteps`), kept abstract as a stored scenario datum since the spec
gives no algorithm for it. -/
structure Network where
  address_space : List Address
  sensitive_hosts : List Address
  compromised_list : List Address
  reachable_list : List Address
  initial_reachable : List Address
  adjacency : Nat → Nat → Bool
  firewall : Nat → Nat → Nat → Bool
  host_value : Address → Int
  host_os : Address → Nat
  host_services : Address → Nat → Bool
  num_services : Nat
  minimal_steps : Int

/-- Modelled from the spec (§4.1): `reachable(addr)` is true if `addr` is in
the reachable set (or is the INTERNET pseudo-address). -/
def Network.reachable (net : Network) (addr : Address) : Bool :=
  decide (addr.1 = INTERNET ∨ addr ∈ net.reachable_list)

/-- Modelled from the spec (§4.1): `setReachable(addr)` marks `addr`
reachable; the reachable set only ever grows. -/
def Network.set_reachable (net : Network) (addr : Address) : Network :=
  { net with reachable_list := addr :: net.reachable_list }

/-- Modelled from the spec (§4.1): pure topology query, independent of
firewall and compromise state. -/
def Network.subnets_connected (net : Network) (a b : Nat) : Bool :=
  net.adjacency a b

/-- Modelled from the spec (§4.1): firewall lookup. -/
def Network.traffic_permitted (net : Network) (src dst service : Nat) : Bool :=
  net.firewall src dst service

/-- Modelled from the spec (§4.1): membership in the compromised set. -/
def Network.compromised (net : Network) (addr : Address) : Bool :=
  decide (addr ∈ net.compromised_list)

/-- Modelled from the spec (§4.1): the scenario's sensitive addresses, a
static query. -/
def Network.get_sensitive_hosts (net : Network) : List Address :=
  net.sensitive_hosts

/-- Modelled from the spec (§4.1): total value of the sensitive hosts, a
static query over the scenario. -/
def Network.get_total_sensitive_host_value (net : Network) : Int :=
  (net.sensitive_hosts.map net.host_value).sum

/-- Modelled from the spec (§4.1): minimal number of steps to compromise all
sensitive hosts, a static query over the scenario graph. -/
def Network.get_minimal_steps (net : Network) : Int :=
  net.minimal_steps

/-- Modelled from the spec (§4.1): `reset()` restores all hosts to
uncompromised/unobserved and clears the reachable set back to the initial
frontier (the hosts of subnets directly adjacent to INTERNET, per §4.2). -/
def Network.reset (net : Network) : Network :=
  { net with
      compromised_list := []
      reachable_list :=
        net.address_space.filter (fun a => net.subnets_connected INTERNET a.1) }

/-- What `Network.performAction` reports back to the orchestrator:
`(success, value, services, os)`; `os := none` embeds an absent OS
observation. -/
structure PerformResult where
  success : Bool
  value : Int
  services : List (Nat × Bool)
  os : Option Nat
deriving DecidableEq

/-- Modelled from the spec (§4.1 `performAction`): executes the action
against its target host, mutating host-level compromise state on success and
returning what the attacker learns.  Scans always succeed and always reveal
the target's service table and OS; an exploit succeeds exactly when the
exploited service is present on the target, reveals only on success, pays
out the host's value only on first compromise, and records the compromise.
It never re-validates reachability, firewall permission or the probability
gate (§4.1 edge-case policy). -/
def Network.perform_action (net : Network) (a : Action) : PerformResult × Network :=
  if a.is_scan then
    ({ success := true
       value := 0
       services := (List.range net.num_services).map
         (fun s => (s, net.host_services a.target s))
       os := some (net.host_os a.target) }, net)
  else if net.host_services a.target a.service then
    ({ success := true
       value := if net.compromised a.target then 0 else net.host_value a.target
       services := (List.range net.num_services).map
         (fun s => (s, net.host_services a.target s))
       os := some (net.host_os a.target) },
     { net with compromised_list := List.insert a.target net.compromised_list })
  else
    ({ success := false, value := 0, services := [], os := none }, net)

/-- Modelled from the spec (§3 State): one row of the fixed-shape encoding —
compromised flag, reachable flag, one observed value per service. -/
structure HostRow where
  compromised : Bool
  reachable : Bool
  service_obs : List Nat
deriving DecidableEq

/-- Modelled from the spec (§3 State, state.py is not under the source
tree): a fixed-shape encoding, one row per host, derived from the Network at
construction and incrementally patched on update. -/
structure State where
  rows : List (Address × HostRow)
deriving DecidableEq

/-- Modelled from the spec (§4.2): the initial fully-observable-mode State —
no host compromised, only hosts of subnets directly adjacent to INTERNET
reachable, no service information gained (observed value 0 everywhere). -/
def State.generate_initial_mdp_state (net : Network) : State :=
  { rows := net.address_space.map (fun addr =>
      (addr,
        { compromised := false
          reachable := net.subnets_connected INTERNET addr.1
          service_obs := List.replicate net.num_services 0 })) }

/-- Modelled from the spec (§4.2 step 6): `State.update(addr)` patches the
row of the exploited address in place, marking that host compromised. -/
def State.update (s : State) (addr : Address) : State :=
  { rows := s.rows.map (fun r =>
      if r.1 = addr then (r.1, { r.2 with compromised := true }) else r) }

/-- Modelled from the spec (§1/§6): the finished Scenario object the core
receives from the out-of-scope loaders.  `net0` stands for the Network built
from it (`Network(scenario)`); `actions` stands for the ordered, immutable
action space `Action.load_action_space(scenario)` of §4.5. -/
structure Scenario where
  net0 : Network
  address_space : List Address
  actions : List Action

/-- The errors `NASimEnv.__init__` can raise: the failed
`assert mode in self.env_modes` (an `AssertionError`) and the
`raise NotImplementedError` of `_generate_initial_state`. -/
inductive ConstructError where
  | invalidMode
  | notImplemented
deriving DecidableEq

/-- The errors `NASimEnv.step` can raise on a bad argument: the failed
`assert isinstance(action, (Action, int))` and the `IndexError` of
`self.action_space[action]` on an out-of-range index. -/
inductive StepError where
  | badType
  | badIndex
deriving DecidableEq

/-- The runtime Python value handed to `step`: an `Action`, an `int`, or
anything else. -/
inductive StepArg where
  | act (a : Action)
  | idx (i : Int)
  | other
deriving DecidableEq

/-- The `info` dict of a step: `success`, `services`, and the `os` key,
which is absent (`none`) in the rejected-step dict built at line 143 of
`environment.py` and present in the full dict of lines 157-159. -/
structure Info where
  success : Bool
  services : List (Nat × Bool)
  os : Option Nat
deriving DecidableEq

/-- The `(obs, reward, done, info)` tuple returned by `step`. -/
structure StepResult where
  state : State
  reward : Int
  done : Bool
  info : Info
deriving DecidableEq

/-- Translation of the `env_modes = ['MDP']` class attribute. -/
def env_modes : List String := ["MDP"]

/-- Translation of the `NASimEnv` instance fields used by the core:
`network`, `address_space`, `action_space`, `current_state`,
`compromised_subnets`, `mode`. -/
structure Env where
  network : Network
  address_space : List Address
  action_space : List Action
  current_state : State
  compromised_subnets : List Nat
  mode : String

/-- Translation of `NASimEnv._generate_initial_state` (lines 280-294): the
MDP branch delegates to `State.generate_initial_mdp_state`; the POMDP branch
and the fallthrough both raise `NotImplementedError`. -/
def generate_initial_state (network : Network) (mode : String) :
    Except ConstructError State :=
  if mode = "MDP" then Except.ok (State.generate_initial_mdp_state network)
  else Except.error ConstructError.notImplemented

/-- Translation of `NASimEnv.reset` (lines 98-108): set the
compromised-subnet set to `{INTERNET}`, reset the Network, and return the
stored `current_state` field (which `reset` does not recompute). -/
def Env.reset (env : Env) : Env × State :=
  let env1 : Env :=
    { env with
        compromised_subnets := [INTERNET]
        network := env.network.reset }
  (env1, env1.current_state)

/-- Translation of `NASimEnv.__init__` (lines 36-56): assert the mode is
supported, install the Network / address space / action space, generate the
initial state, and call `reset()`. -/
def mkEnv (scenario : Scenario) (mode : String) : Except ConstructError Env :=
  if mode ∈ env_modes then
    match generate_initial_state scenario.net0 mode with
    | Except.error e => Except.error e
    | Except.ok st =>
        Except.ok
          (Env.reset
            { network := scenario.net0
              address_space := scenario.address_space
              action_space := scenario.actions
              current_state := st
              compromised_subnets := []
              mode := mode }).1
  else Except.error ConstructError.invalidMode

/-- Translation of `NASimEnv._action_traffic_permitted` (lines 296-320):
unreachable targets are not permitted, scans are always permitted, and an
exploit is permitted when some compromised subnet's firewall rule allows the
action's service to the target's subnet. -/
def Env.action_traffic_permitted (env : Env) (action : Action) : Bool :=
  if env.network.reachable action.target = false then false
  else if action.is_scan then true
  else env.compromised_subnets.any
    (fun src => env.network.traffic_permitted src action.target.1 action.service)

/-- Translation of `NASimEnv._update_reachable` (lines 343-358): walk the
full address space and mark reachable every not-yet-reachable address whose
subnet is connected to the newly compromised host's subnet. -/
def Env.update_reachable (env : Env) (compromised_host : Address) : Env :=
  let comp_subnet := compromised_host.1
  { env with
      network := env.address_space.foldl
        (fun net addr =>
          if net.reachable addr then net
          else if net.subnets_connected comp_subnet addr.1 then
            net.set_reachable addr
          else net)
        env.network }

/-- Translation of `NASimEnv._update_state` (lines 322-341): only a
successful non-scan action patches the bookkeeping — add the target's subnet
to the compromised-subnet set, propagate reachability, patch the State row
of the target. -/
def Env.update_state (env : Env) (action : Action) (success : Bool) : Env :=
  if !action.is_scan && success then
    let env1 : Env :=
      { env with
          compromised_subnets :=
            List.insert action.target.1 env.compromised_subnets }
    let env2 := env1.update_reachable action.target
    { env2 with current_state := env2.current_state.update action.target }
  else env

/-- Translation of `NASimEnv._is_goal` (lines 360-373): true iff every
sensitive host is compromised. -/
def Env.is_goal (env : Env) : Bool :=
  env.network.get_sensitive_hosts.all (fun m => env.network.compromised m)

/-- Translation of `NASimEnv.get_best_possible_score` (lines 263-278). -/
def Env.get_best_possible_score (env : Env) : Int :=
  env.network.get_total_sensitive_host_value - env.network.get_minimal_steps

/-- The rejected-step return value of lines 143-151 of `environment.py`:
the current state, reward `0 - action.cost`, `done = False`, and the info
dict `{success: False, services: {}}` (no `os` key). -/
def Env.rejected (env : Env) (action : Action) : StepResult :=
  { state := env.current_state
    reward := 0 - action.cost
    done := false
    info := { success := false, services := [], os := none } }

/-- Translation of the argument handling of `NASimEnv.step` (lines 139-141):
a non-Action non-int argument fails the isinstance assertion, an int is
Python-list-indexed into the action space (negative indices count from the
end; out-of-range indices raise `IndexError`). -/
def Env.resolve_action (env : Env) : StepArg → Except StepError Action
  | StepArg.act a => Except.ok a
  | StepArg.idx i =>
      let n : Int := env.action_space.length
      let j : Int := if i < 0 then i + n else i
      if j < 0 then Except.error StepError.badIndex
      else
        match env.action_space[j.toNat]? with
        | some a => Except.ok a
        | none => Except.error StepError.badIndex
  | StepArg.other => Except.error StepError.badType

/-- Translation of the body of `NASimEnv.step` after argument resolution
(lines 143-159): the reachability gate, the firewall gate, the probability
gate (`np.random.rand() > action.prob`, the only point that consumes a
random draw), then delegation to `Network.perform_action`, the state update,
the goal check and the reward. -/
def Env.step_resolved (env : Env) (action : Action) (rand : Nat → ℚ) (k : Nat) :
    Env × StepResult × Nat :=
  if env.network.reachable action.target = false then
    (env, env.rejected action, k)
  else if env.action_traffic_permitted action = false then
    (env, env.rejected action, k)
  else if action.prob < rand k then
    (env, env.rejected action, k + 1)
  else
    let pr := env.network.perform_action action
    let env1 : Env := { env with network := pr.2 }
    let env2 := env1.update_state action pr.1.success
    (env2,
     { state := env2.current_state
       reward := pr.1.value - action.cost
       done := env2.is_goal
       info := { success := pr.1.success, services := pr.1.services, os := pr.1.os } },
     k + 1)

/-- Translation of `NASimEnv.step` (lines 110-159): resolve the argument,
then run the step body.  The explicit random stream `(rand, k)` embeds the
global NumPy generator; the returned `Nat` is the advanced cursor. -/
def Env.step (env : Env) (arg : StepArg) (rand : Nat → ℚ) (k : Nat) :
    Except StepError (Env × StepResult × Nat) :=
  match env.resolve_action arg with
  | Except.error e => Except.error e
  | Except.ok action => Except.ok (env.step_resolved action rand k)

/-! ### Concrete fixture

A small concrete scenario used to exercise the theorems on explicit inputs:
subnet 1 is the DMZ (adjacent to INTERNET), subnet 2 hangs off subnet 1,
every firewall rule is open, each subnet holds one host running service 0,
and host (1,0) is the only sensitive host, worth 10. -/

/-- Fixture subnet adjacency: INTERNET-1 and 1-2. -/
def wAdj : Nat → Nat → Bool := fun a b =>
  (a == 0 && b == 1) || (a == 1 && b == 0) || (a == 1 && b == 2) || (a == 2 && b == 1)

/-- Fixture network. -/
def wNet : Network :=
  { address_space := [(1, 0), (2, 0)]
    sensitive_hosts := [(1, 0)]
    compromised_list := []
    reachable_list := [(1, 0)]
    initial_reachable := [(1, 0)]
    adjacency := wAdj
    firewall := fun _ _ _ => true
    host_value := fun _ => 10
    host_os := fun _ => 1
    host_services := fun _ s => s == 0
    num_services := 1
    minimal_steps := 1 }

/-- Fixture exploit against the sensitive DMZ host, cost 1, certain. -/
def wExploit : Action :=
  { target := (1, 0), cost := 1, prob := 1, service := 0, is_scan := false }

/-- Fixture scan of the DMZ host, cost 0. -/
def wScan : Action :=
  { target := (1, 0), cost := 0, prob := 1, service := 0, is_scan := true }

/-- Fixture exploit whose target (2,0) is not reachable initially. -/
def wUnreachable : Action :=
  { target := (2, 0), cost := 3, prob := 1, service := 0, is_scan := false }

/-- Fixture scenario. -/
def wScenario : Scenario :=
  { net0 := wNet
    address_space := [(1, 0), (2, 0)]
    actions := [wExploit, wScan] }

/-- Fixture random stream: every draw is 0 (below every success
probability). -/
def wRand : Nat → ℚ := fun _ => 0

/-- Fixture environment, as built by the constructor in MDP mode (the error
branch is unreachable for this scenario). -/
def wEnv : Env :=
  match mkEnv wScenario "MDP" with
  | Except.ok e => e
  | Except.error _ =>
      { network := wNet, address_space := [], action_space := [],
        current_state := { rows := [] }, compromised_subnets := [], mode := "MDP" }

/-- The environment after one successful exploit step on (1,0) from the
fixture environment (the error branch is unreachable). -/
def wStepped : Env :=
  match wEnv.step (StepArg.act wExploit) wRand 0 with
  | Except.ok (e, _, _) => e
  | Except.error _ => wEnv

/-- The step result of the same successful exploit step (the error branch is
unreachable). -/
def wStepRes : StepResult :=
  match wEnv.step (StepArg.act wExploit) wRand 0 with
  | Except.ok (_, r, _) => r
  | Except.error _ => wEnv.rejected wExploit

/-! ### Helper lemmas -/

/-- Marking one address reachable makes exactly that address (newly)
reachable. -/
theorem reachable_set_reachable_iff (net : Network) (a b : Address) :
    (net.set_reachable a).reachable b = true ↔ b = a ∨ net.reachable b = true := by
  simp only [Network.reachable, Network.set_reachable, List.mem_cons,
    decide_eq_true_eq]
  tauto

/-- Marking an address reachable does not change the subnet adjacency. -/
theorem set_reachable_adjacency (net : Network) (a : Address) :
    (net.set_reachable a).adjacency = net.adjacency := rfl

/-- Characterization of the reachable-marking fold of `_update_reachable`:
an address ends up reachable iff it already was, or it occurs in the
traversed list and its subnet is adjacent to the compromised subnet. -/
theorem reachable_foldl (c : Nat) (l : List Address) (net : Network) (b : Address) :
    ((l.foldl
        (fun net addr =>
          if net.reachable addr then net
          else if net.subnets_connected c addr.1 then net.set_reachable addr
          else net)
        net).reachable b = true) ↔
      (net.reachable b = true ∨ (b ∈ l ∧ net.adjacency c b.1 = true)) := by
  induction l generalizing net with
  | nil => simp
  | cons a l ih =>
    simp only [List.foldl_cons]
    by_cases h1 : net.reachable a = true
    · rw [if_pos h1, ih]
      constructor
      · rintro (h | ⟨hm, ha⟩)
        · exact Or.inl h
        · exact Or.inr ⟨List.mem_cons_of_mem _ hm, ha⟩
      · rintro (h | ⟨hm, ha⟩)
        · exact Or.inl h
        · rcases List.mem_cons.mp hm with rfl | hm2
          · exact Or.inl h1
          · exact Or.inr ⟨hm2, ha⟩
    · rw [if_neg h1]
      by_cases h2 : net.subnets_connected c a.1 = true
      · rw [if_pos h2, ih]
        simp only [reachable_set_reachable_iff, set_reachable_adjacency]
        constructor
        · rintro ((rfl | h) | ⟨hm, ha⟩)
          · exact Or.inr ⟨List.mem_cons_self _ _, h2⟩
          · exact Or.inl h
          · exact Or.inr ⟨List.mem_cons_of_mem _ hm, ha⟩
        · rintro (h | ⟨hm, ha⟩)
          · exact Or.inl (Or.inr h)
          · rcases List.mem_cons.mp hm with rfl | hm2
            · exact Or.inl (Or.inl rfl)
            · exact Or.inr ⟨hm2, ha⟩
      · rw [if_neg h2, ih]
        constructor
        · rintro (h | ⟨hm, ha⟩)
          · exact Or.inl h
          · exact Or.inr ⟨List.mem_cons_of_mem _ hm, ha⟩
        · rintro (h | ⟨hm, ha⟩)
          · exact Or.inl h
          · rcases List.mem_cons.mp hm with rfl | hm2
            · exact absurd ha h2
            · exact Or.inr ⟨hm2, ha⟩

/-- `_is_goal` holds exactly when every sensitive host is compromised. -/
theorem is_goal_iff (env : Env) :
    env.is_goal = true ↔
      ∀ m ∈ env.network.get_sensitive_hosts, env.network.compromised m = true := by
  simp [Env.is_goal, List.all_eq_true]

/-- `_update_state` either leaves the compromised-subnet set alone or inserts
the target's subnet. -/
theorem update_state_compromised_subnets (env : Env) (a : Action) (s : Bool) :
    (env.update_state a s).compromised_subnets = env.compromised_subnets ∨
    (env.update_state a s).compromised_subnets =
      List.insert a.target.1 env.compromised_subnets := by
  by_cases h : (!a.is_scan && s) = true
  · right; simp [Env.update_state, Env.update_reachable, h]
  · left; simp [Env.update_state, h]

/-- `_update_state` either leaves the State alone or patches the target's
row. -/
theorem update_state_current_state (env : Env) (a : Action) (s : Bool) :
    (env.update_state a s).current_state = env.current_state ∨
    (env.update_state a s).current_state = env.current_state.update a.target := by
  by_cases h : (!a.is_scan && s) = true
  · right; simp [Env.update_state, Env.update_reachable, h]
  · left; simp [Env.update_state, h]

/-- When all three gates pass, the step body runs the perform/update/goal
pipeline and consumes one random draw. -/
theorem step_resolved_success (env : Env) (a : Action) (rand : Nat → ℚ) (k : Nat)
    (h1 : env.network.reachable a.target = true)
    (h2 : env.action_traffic_permitted a = true)
    (h3 : ¬ a.prob < rand k) :
    env.step_resolved a rand k =
      (Env.update_state { env with network := (env.network.perform_action a).2 } a
         (env.network.perform_action a).1.success,
       { state :=
           (Env.update_state { env with network := (env.network.perform_action a).2 } a
              (env.network.perform_action a).1.success).current_state
         reward := (env.network.perform_action a).1.value - a.cost
         done :=
           (Env.update_state { env with network := (env.network.perform_action a).2 } a
              (env.network.perform_action a).1.success).is_goal
         info := { success := (env.network.perform_action a).1.success
                   services := (env.network.perform_action a).1.services
                   os := (env.network.perform_action a).1.os } },
       k + 1) := by
  unfold Env.step_resolved
  rw [if_neg (by simp [h1]), if_neg (by simp [h2]), if_neg h3]

/-- The step body either returns the rejected triple with the environment
unchanged, or runs the perform/update/goal pipeline. -/
theorem step_resolved_cases (env : Env) (a : Action) (rand : Nat → ℚ) (k : Nat) :
    (env.step_resolved a rand k =
       (env, env.rejected a,
        if env.network.reachable a.target && env.action_traffic_permitted a
        then k + 1 else k)) ∨
    env.step_resolved a rand k =
      (Env.update_state { env with network := (env.network.perform_action a).2 } a
         (env.network.perform_action a).1.success,
       { state :=
           (Env.update_state { env with network := (env.network.perform_action a).2 } a
              (env.network.perform_action a).1.success).current_state
         reward := (env.network.perform_action a).1.value - a.cost
         done :=
           (Env.update_state { env with network := (env.network.perform_action a).2 } a
              (env.network.perform_action a).1.success).is_goal
         info := { success := (env.network.perform_action a).1.success
                   services := (env.network.perform_action a).1.services
                   os := (env.network.perform_action a).1.os } },
       k + 1) := by
  by_cases g1 : env.network.reachable a.target = false
  · left
    unfold Env.step_resolved
    simp [g1]
  · rw [Bool.not_eq_false] at g1
    by_cases g2 : env.action_traffic_permitted a = false
    · left
      unfold Env.step_resolved
      simp [g1, g2]
    · rw [Bool.not_eq_false] at g2
      by_cases g3 : a.prob < rand k
      · left
        unfold Env.step_resolved
        simp [g1, g2, g3]
      · right
        exact step_resolved_success env a rand k g1 g2 g3

/-! ### Claim theorems -/

/-- C10: `get_best_possible_score` returns exactly the Network's total
sensitive-host value minus the Network's minimal steps; being a plain
function of the environment it has no side effects on the environment, the
Network or the State. -/
theorem best_score_eq (env : Env) :
    env.get_best_possible_score =
      env.network.get_total_sensitive_host_value - env.network.get_minimal_steps := rfl

/-- C8 counterexample: selecting the partially-observable mode does not
surface the distinct not-implemented failure; it dies on the same generic
invalid-mode assertion of `__init__` as any other unsupported mode, because
`env_modes = ['MDP']` makes the `NotImplementedError` branch of
`_generate_initial_state` unreachable from the constructor. -/
theorem pomdp_failure_not_distinct :
    mkEnv wScenario "POMDP" = Except.error ConstructError.invalidMode ∧
    ConstructError.invalidMode ≠ ConstructError.notImplemented :=
  ⟨rfl, by decide⟩

/-- C8 amended: constructing an environment with an observability mode
outside the supported set `['MDP']` fails explicitly at construction time,
always with the invalid-mode assertion failure (also for the
partially-observable mode). -/
theorem mkEnv_unsupported_mode (s : Scenario) (m : String) (hm : m ∉ env_modes) :
    mkEnv s m = Except.error ConstructError.invalidMode := by
  unfold mkEnv
  rw [if_neg hm]

/-- Witness for `mkEnv_unsupported_mode` at a concrete unsupported mode. -/
theorem mkEnv_unsupported_mode_witness :
    "FOO" ∉ env_modes ∧
    mkEnv wScenario "FOO" = Except.error ConstructError.invalidMode :=
  ⟨by decide, mkEnv_unsupported_mode wScenario "FOO" (by decide)⟩

/-- C2 (code bug): `reset()` does not recompute the initial State — the
State is generated once in `__init__` and only ever patched in place — so
after a successful exploit has patched it, `reset()` returns a State that
differs from the freshly computed initial State of the reset Network (the
exploited host is still marked compromised). -/
theorem reset_returns_stale_state :
    (wStepped.reset).2 ≠
      State.generate_initial_mdp_state (wStepped.reset).1.network := by
  decide

/-- C4: the reachability propagation of `_update_reachable` after a
compromise in the subnet of `h` marks reachable exactly the addresses of the
address space whose subnet is topologically connected to that subnet
(independent of firewall state), keeps every previously reachable address
reachable, and changes nothing else — in particular the expansion is a
single frontier step: an address becomes newly reachable only through direct
adjacency to the compromised subnet, never transitively through other
subnets. -/
theorem update_reachable_frontier (env : Env) (h : Address) (addr : Address) :
    (env.update_reachable h).network.reachable addr = true ↔
      (env.network.reachable addr = true ∨
        (addr ∈ env.address_space ∧
          env.network.subnets_connected h.1 addr.1 = true)) := by
  unfold Env.update_reachable
  exact reachable_foldl h.1 env.address_space env.network addr

/-- C1: an action whose execution is rejected — unreachable target, or (for
a non-scan action, via `_action_traffic_permitted`) no compromised subnet
with firewall permission, or a random draw exceeding the success probability
— makes `step` return the current State, reward exactly `-action.cost`,
`done = false` and the info dict `{success: false, services: {}}`, with the
environment (Network, compromised-subnet set and State) returned unchanged.
The returned cursor records the short-circuit order: the random draw is
consumed only when the two earlier checks both pass. -/
theorem step_rejected (env : Env) (a : Action) (rand : Nat → ℚ) (k : Nat)
    (h : env.network.reachable a.target = false ∨
         env.action_traffic_permitted a = false ∨
         a.prob < rand k) :
    env.step (StepArg.act a) rand k =
      Except.ok (env, env.rejected a,
        if env.network.reachable a.target && env.action_traffic_permitted a
        then k + 1 else k) := by
  unfold Env.step Env.resolve_action Env.step_resolved
  rcases h with h | h | h
  · simp [h]
  · by_cases h1 : env.network.reachable a.target = false
    · simp [h1]
    · rw [Bool.not_eq_false] at h1
      simp [h, h1]
  · by_cases h1 : env.network.reachable a.target = false
    · simp [h1]
    · rw [Bool.not_eq_false] at h1
      by_cases h2 : env.action_traffic_permitted a = false
      · simp [h1, h2]
      · rw [Bool.not_eq_false] at h2
        simp [h1, h2, h]

/-- Witness for `step_rejected`: the fixture exploit against the initially
unreachable host (2,0). -/
theorem step_rejected_witness :
    wEnv.network.reachable wUnreachable.target = false ∧
    wEnv.step (StepArg.act wUnreachable) wRand 0 =
      Except.ok (wEnv, wEnv.rejected wUnreachable,
        if wEnv.network.reachable wUnreachable.target &&
            wEnv.action_traffic_permitted wUnreachable
        then 0 + 1 else 0) :=
  ⟨by decide, step_rejected wEnv wUnreachable wRand 0 (Or.inl (by decide))⟩

/-- C7: `step` fails with the isinstance assertion on any argument that is
neither an Action nor an int, fails with an index error on an int outside
the valid (Python) index range of the action space, and on an in-range index
first coerces it to the Action stored at that position of the action space
and then behaves exactly as if that Action had been passed. -/
theorem step_argument_handling (env : Env) (rand : Nat → ℚ) (k : Nat) :
    (env.step StepArg.other rand k = Except.error StepError.badType) ∧
    (∀ i : Int,
      (i < -(env.action_space.length : Int) ∨ (env.action_space.length : Int) ≤ i) →
      env.step (StepArg.idx i) rand k = Except.error StepError.badIndex) ∧
    (∀ i : Int, 0 ≤ i → ∀ a, env.action_space[i.toNat]? = some a →
      env.step (StepArg.idx i) rand k = env.step (StepArg.act a) rand k) := by
  refine ⟨rfl, ?_, ?_⟩
  · intro i hi
    unfold Env.step Env.resolve_action
    rcases hi with hi | hi
    · have hneg : i < 0 := by omega
      have hj : i + (env.action_space.length : Int) < 0 := by omega
      simp [hneg, hj]
    · have hge : ¬ i < 0 := by omega
      have hlen : env.action_space.length ≤ i.toNat := by omega
      simp [hge, List.getElem?_eq_none hlen]
  · intro i h0 a ha
    have hge : ¬ i < 0 := by omega
    unfold Env.step Env.resolve_action
    simp [hge, ha]

/-- Witness for `step_argument_handling`: the fixture environment with a
non-Action non-int argument, the out-of-range index 5, and the in-range
index 0. -/
theorem step_argument_handling_witness :
    wEnv.step StepArg.other wRand 0 = Except.error StepError.badType ∧
    wEnv.step (StepArg.idx 5) wRand 0 = Except.error StepError.badIndex ∧
    wEnv.step (StepArg.idx 0) wRand 0 = wEnv.step (StepArg.act wExploit) wRand 0 :=
  ⟨(step_argument_handling wEnv wRand 0).1,
   (step_argument_handling wEnv wRand 0).2.1 5 (Or.inr (by decide)),
   (step_argument_handling wEnv wRand 0).2.2 0 (by decide) wExploit (by decide)⟩

/-- C3: a step that passes all three gates returns `done = true` exactly
when every sensitive host of the scenario is compromised in the resulting
Network; the goal check `_is_goal` is a pure function of the Network's
compromised state, and with zero sensitive hosts it holds vacuously, in
particular immediately after `reset()`. -/
theorem step_done_iff_goal (env : Env) (a : Action) (rand : Nat → ℚ) (k : Nat)
    (h1 : env.network.reachable a.target = true)
    (h2 : env.action_traffic_permitted a = true)
    (h3 : ¬ a.prob < rand k) :
    (∀ env2 res k2, env.step (StepArg.act a) rand k = Except.ok (env2, res, k2) →
      (res.done = true ↔
        ∀ m ∈ env2.network.get_sensitive_hosts, env2.network.compromised m = true)) ∧
    ∀ e : Env, e.network.get_sensitive_hosts = [] → (e.reset).1.is_goal = true := by
  constructor
  · intro env2 res k2 hstep
    unfold Env.step at hstep
    simp only [Env.resolve_action] at hstep
    rw [Except.ok.injEq, step_resolved_success env a rand k h1 h2 h3] at hstep
    injection hstep with hA hBC
    injection hBC with hB hC
    subst hA
    subst hB
    exact is_goal_iff _
  · intro e he
    have hs : e.network.sensitive_hosts = [] := he
    simp [Env.reset, Env.is_goal, Network.get_sensitive_hosts, Network.reset, hs]

/-- Witness for `step_done_iff_goal`: the fixture exploit on the sensitive
host (1,0), all gates passing. -/
theorem step_done_iff_goal_witness :
    wEnv.network.reachable wExploit.target = true ∧
    (wStepRes.done = true ↔
      ∀ m ∈ wStepped.network.get_sensitive_hosts, wStepped.network.compromised m = true) :=
  ⟨by decide,
   (step_done_iff_goal wEnv wExploit wRand 0 (by decide) (by decide) (by decide)).1
     wStepped wStepRes 1 rfl⟩

/-- C5: `reset()` initialises the compromised-subnet set to exactly
`{INTERNET}`, and every (non-raising) step either leaves the set unchanged
or inserts one subnet, never removing a member; hence the set always
contains `INTERNET` after `reset()`. -/
theorem compromised_subnets_internet_invariant (env : Env) (arg : StepArg)
    (rand : Nat → ℚ) (k : Nat) :
    (env.reset).1.compromised_subnets = [INTERNET] ∧
    ∀ env2 res k2, env.step arg rand k = Except.ok (env2, res, k2) →
      (env2.compromised_subnets = env.compromised_subnets ∨
        ∃ s, env2.compromised_subnets = List.insert s env.compromised_subnets) ∧
      ∀ x ∈ env.compromised_subnets, x ∈ env2.compromised_subnets := by
  refine ⟨rfl, ?_⟩
  intro env2 res k2 hstep
  unfold Env.step at hstep
  cases hres : env.resolve_action arg with
  | error e => rw [hres] at hstep; cases hstep
  | ok a =>
    simp only [hres] at hstep
    rw [Except.ok.injEq] at hstep
    rcases step_resolved_cases env a rand k with hc | hc
    · rw [hc] at hstep
      injection hstep with hA hBC
      subst hA
      exact ⟨Or.inl rfl, fun x hx => hx⟩
    · rw [hc] at hstep
      injection hstep with hA hBC
      subst hA
      rcases update_state_compromised_subnets
          { env with network := (env.network.perform_action a).2 } a
          (env.network.perform_action a).1.success with hu | hu
      · rw [hu]
        exact ⟨Or.inl rfl, fun x hx => hx⟩
      · rw [hu]
        exact ⟨Or.inr ⟨a.target.1, rfl⟩, fun x hx => List.mem_insert_of_mem hx⟩

/-- Witness for `compromised_subnets_internet_invariant`: the fixture
environment and its successful exploit step. -/
theorem compromised_subnets_internet_invariant_witness :
    (wEnv.reset).1.compromised_subnets = [INTERNET] ∧
    ((wStepped.compromised_subnets = wEnv.compromised_subnets ∨
        ∃ s, wStepped.compromised_subnets = List.insert s wEnv.compromised_subnets) ∧
      ∀ x ∈ wEnv.compromised_subnets, x ∈ wStepped.compromised_subnets) :=
  ⟨(compromised_subnets_internet_invariant wEnv (StepArg.act wExploit) wRand 0).1,
   (compromised_subnets_internet_invariant wEnv (StepArg.act wExploit) wRand 0).2
     wStepped wStepRes 1 rfl⟩

/-- C9: `reset()` returns exactly the State stored in the environment's
`current_state` field (it never recomputes it), and every non-raising step
returns exactly the resulting environment's `current_state`, which is either
the previous stored State or that same State patched in place by
`State.update`; no fresh State is ever produced by either operation. -/
theorem state_return_aliased (env : Env) (arg : StepArg) (rand : Nat → ℚ) (k : Nat) :
    (env.reset).2 = env.current_state ∧
    ∀ env2 res k2, env.step arg rand k = Except.ok (env2, res, k2) →
      res.state = env2.current_state ∧
      (env2.current_state = env.current_state ∨
        ∃ t, env2.current_state = env.current_state.update t) := by
  refine ⟨rfl, ?_⟩
  intro env2 res k2 hstep
  unfold Env.step at hstep
  cases hres : env.resolve_action arg with
  | error e => rw [hres] at hstep; cases hstep
  | ok a =>
    simp only [hres] at hstep
    rw [Except.ok.injEq] at hstep
    rcases step_resolved_cases env a rand k with hc | hc
    · rw [hc] at hstep
      injection hstep with hA hBC
      injection hBC with hB hC
      subst hA
      subst hB
      exact ⟨rfl, Or.inl rfl⟩
    · rw [hc] at hstep
      injection hstep with hA hBC
      injection hBC with hB hC
      subst hA
      subst hB
      refine ⟨rfl, ?_⟩
      rcases update_state_current_state
          { env with network := (env.network.perform_action a).2 } a
          (env.network.perform_action a).1.success with hu | hu
      · exact Or.inl hu
      · exact Or.inr ⟨a.target, hu⟩

/-- Witness for `state_return_aliased`: the fixture environment and its
successful exploit step. -/
theorem state_return_aliased_witness :
    (wEnv.reset).2 = wEnv.current_state ∧
    (wStepRes.state = wStepped.current_state ∧
      (wStepped.current_state = wEnv.current_state ∨
        ∃ t, wStepped.current_state = State.update wEnv.current_state t)) :=
  ⟨(state_return_aliased wEnv (StepArg.act wExploit) wRand 0).1,
   (state_return_aliased wEnv (StepArg.act wExploit) wRand 0).2
     wStepped wStepRes 1 rfl⟩

/-- C6: a step that passes all three gates patches the orchestrator's
bookkeeping exactly when the action is a non-scan and the Network reported
success — then the target's subnet is inserted into the compromised-subnet
set, reachability is propagated from the target via `_update_reachable`,
and the State is patched for the target address; for every scan and every
unsuccessful exploit the compromised-subnet set and the State are untouched
— while in all cases the step returns the success flag, services, os and
value reported by `Network.perform_action`. -/
theorem step_success_frame (env : Env) (a : Action) (rand : Nat → ℚ) (k : Nat)
    (h1 : env.network.reachable a.target = true)
    (h2 : env.action_traffic_permitted a = true)
    (h3 : ¬ a.prob < rand k) :
    ∀ env2 res k2, env.step (StepArg.act a) rand k = Except.ok (env2, res, k2) →
      res.info.success = (env.network.perform_action a).1.success ∧
      res.info.services = (env.network.perform_action a).1.services ∧
      res.info.os = (env.network.perform_action a).1.os ∧
      res.reward = (env.network.perform_action a).1.value - a.cost ∧
      k2 = k + 1 ∧
      if (!a.is_scan && (env.network.perform_action a).1.success) = true then
        env2.compromised_subnets = List.insert a.target.1 env.compromised_subnets ∧
        env2.current_state = env.current_state.update a.target ∧
        env2.network =
          (Env.update_reachable { env with network := (env.network.perform_action a).2 }
            a.target).network
      else
        env2.compromised_subnets = env.compromised_subnets ∧
        env2.current_state = env.current_state ∧
        env2.network = (env.network.perform_action a).2 := by
  intro env2 res k2 hstep
  unfold Env.step at hstep
  simp only [Env.resolve_action] at hstep
  rw [Except.ok.injEq, step_resolved_success env a rand k h1 h2 h3] at hstep
  injection hstep with hA hBC
  injection hBC with hB hC
  subst hA
  subst hB
  refine ⟨rfl, rfl, rfl, rfl, hC.symm, ?_⟩
  by_cases hc : (!a.is_scan && (env.network.perform_action a).1.success) = true
  · rw [if_pos hc]
    unfold Env.update_state
    rw [if_pos hc]
    exact ⟨rfl, rfl, rfl⟩
  · rw [if_neg hc]
    unfold Env.update_state
    rw [if_neg hc]
    exact ⟨rfl, rfl, rfl⟩

/-- Witness for `step_success_frame`: the fixture exploit on (1,0), which
passes all gates and succeeds. -/
theorem step_success_frame_witness :
    wEnv.network.reachable wExploit.target = true ∧
    (wStepRes.info.success = (wEnv.network.perform_action wExploit).1.success ∧
      wStepRes.info.services = (wEnv.network.perform_action wExploit).1.services ∧
      wStepRes.info.os = (wEnv.network.perform_action wExploit).1.os ∧
      wStepRes.reward = (wEnv.network.perform_action wExploit).1.value - wExploit.cost ∧
      (1 : Nat) = 0 + 1 ∧
      if (!wExploit.is_scan && (wEnv.network.perform_action wExploit).1.success) = true then
        wStepped.compromised_subnets = List.insert wExploit.target.1 wEnv.compromised_subnets ∧
        wStepped.current_state = wEnv.current_state.update wExploit.target ∧
        wStepped.network =
          (Env.update_reachable
            { wEnv with network := (wEnv.network.perform_action wExploit).2 }
            wExploit.target).network
      else
        wStepped.compromised_subnets = wEnv.compromised_subnets ∧
        wStepped.current_state = wEnv.current_state ∧
        wStepped.network = (wEnv.network.perform_action wExploit).2) :=
  ⟨by decide,
   step_success_frame wEnv wExploit wRand 0 (by decide) (by decide) (by decide)
     wStepped wStepRes 1 rfl⟩

end NASim
